import Mathlib

/-!
# Verification of the socialregistration identity-linking flows

A shallow embedding of `socialregistration/views.py`.  The Django ORM tables
backing the provider profile models are embedded as Lean lists, the request
session as an explicit record, and each view as a pure function from the
request and the stores to a result together with the updated stores/session.

Pieces of the repository that are not part of the given sources (the profile
models, the auth backends, `UserForm`/`ClaimForm`) are modelled from the
specification; each such definition carries a doc comment starting with
`Modelled from the spec:`.
-/

namespace SocialReg

/-- Identity provider, i.e. which profile table a row lives in
(`FacebookProfile`, `TwitterProfile`, `OpenIDProfile`). -/
inductive Provider where
  | facebook
  | twitter
  | openid
deriving DecidableEq

/-- A Django content type: either the `User` model or an arbitrary domain
model identified by its (app_label, model) natural key. -/
inductive CType where
  | user
  | obj (appLabel : String) (model : String)
deriving DecidableEq

/-- A local user account row (`django.contrib.auth.models.User`), restricted
to the fields the views touch. -/
structure SUser where
  pk : Nat := 0
  username : String := ""
  password : String := ""
  isActive : Bool := true
deriving DecidableEq

/-- A provider profile row.  The three per-provider tables are embedded as one
list of rows tagged with their `provider`; `remoteId` is the provider-scoped
subject identifier (`uid` / `twitter_id` / `identity`), and
(`contentType`, `objectId`) is the generic foreign key to the bound target
(`none` while the row is an unsaved in-session candidate). -/
structure Profile where
  pk : Nat := 0
  provider : Provider
  remoteId : String
  contentType : Option CType := none
  objectId : Option Nat := none
  consumerKey : String := ""
  consumerSecret : String := ""
  screenname : String := ""
  site : Nat := 1
deriving DecidableEq

/-- An arbitrary domain object usable as a link target
(`socialregistration_connect_object`).  `canonicalUrl` is the value of
`get_absolute_url()` when the model defines it. -/
structure ConnObj where
  ctype : CType
  pk : Nat
  canonicalUrl : Option String := none
deriving DecidableEq

/-- The request session, restricted to the keys the views read or write. -/
structure Session where
  next : Option String := none
  srUser : Option SUser := none
  srProfile : Option Profile := none
  connectObject : Option ConnObj := none
  disconnectUrl : Option String := none
  oauthApiTwitterToken : Option (String × String) := none
  oauthTwitterToken : Option (String × String) := none
deriving DecidableEq

/-- The Django settings the views consult, with their `getattr` defaults. -/
structure Settings where
  generateUsername : Bool := false
  loginRedirectUrl : Option String := none
  disconnectUrl : String := ""
deriving DecidableEq

/-- `request.facebook.user`: the token payload the Facebook middleware exposes
once the application was authorized. -/
structure FBUser where
  accessToken : String
  secret : String := ""
deriving DecidableEq

/-- An inbound request: method, GET/POST parameters, session, the
authenticated user (`none` encodes `request.user.is_authenticated()` being
false), and the Facebook middleware attributes. -/
structure Request where
  isPost : Bool := false
  gets : List (String × String) := []
  posts : List (String × String) := []
  session : Session := {}
  user : Option SUser := none
  facebookUid : Option String := none
  facebookUser : Option FBUser := none
  httpReferer : Option String := none
deriving DecidableEq

/-- First value bound to key `k` in a GET/POST parameter list. -/
def getParam (l : List (String × String)) (k : String) : Option String :=
  (l.find? (fun kv => kv.1 == k)).map (fun kv => kv.2)

/-- Outcome of Django's `Model.objects.get(...)`: the unique matching row,
`DoesNotExist`, or `MultipleObjectsReturned`. -/
inductive GetResult where
  | found (p : Profile)
  | notFound
  | multiple
deriving DecidableEq

/-- `objects.get` over the embedded profile tables. -/
def dbGet (l : List Profile) (pred : Profile → Bool) : GetResult :=
  match l.filter pred with
  | [] => .notFound
  | [p] => .found p
  | _ :: _ :: _ => .multiple

/-- Autoincrement primary key for an insert into the profile tables. -/
def freshProfilePk (l : List Profile) : Nat :=
  (l.map (fun p => p.pk)).foldr Nat.max 0 + 1

/-- Autoincrement primary key for an insert into the user table. -/
def freshUserPk (l : List SUser) : Nat :=
  (l.map (fun u => u.pk)).foldr Nat.max 0 + 1

/-- Modelled from the spec: Django's unusable-password sentinel — "an explicit
unusable sentinel prevents credential-based login while leaving the field
non-null" (`set_unusable_password`). -/
def unusablePassword : String := "!"

/-- Modelled from the spec: password-based authentication of a stored
password against an attempt; the unusable sentinel (and an empty field)
never authenticates. -/
def checkPassword (stored attempt : String) : Bool :=
  if stored == unusablePassword || stored == "" then false else stored == attempt

/-- Modelled from the spec: `User()` — a fresh unsaved account shell
(active by default, empty password). -/
def blankUser : SUser := { pk := 0, username := "", password := "", isActive := true }

/-- Modelled from the spec: the provider auth backends behind
`authenticate(uid=...)` / `authenticate(twitter_id=...)` /
`authenticate(identity=...)`: look up a ProviderProfile by
(provider, remote_id) bound to a `User` target and return that user. -/
def authenticateBy (db : List Profile) (users : List SUser)
    (provider : Provider) (remoteId : String) : Option SUser :=
  match db.find? (fun p => p.provider == provider && p.remoteId == remoteId &&
                           p.contentType == some CType.user) with
  | some p =>
    match p.objectId with
    | some oid => users.find? (fun u => u.pk == oid)
    | none => none
  | none => none

/-- Modelled from the spec: `profile.authenticate()` on a saved profile —
resolve the profile's bound local account; `none` when the profile is not
bound to a user. -/
def profileAuthenticate (users : List SUser) (p : Profile) : Option SUser :=
  match p.contentType, p.objectId with
  | some CType.user, some oid => users.find? (fun u => u.pk == oid)
  | _, _ => none

/-- `_get_next(request)`: the post-login redirect URL.  Reading the session
`next` key deletes it (the source does `del request.session['next']`), so the
call is not idempotent on such a request. -/
def get_next (sess : Session) (gets posts : List (String × String)) (s : Settings) :
    String × Session :=
  match sess.next with
  | some n => (n, { sess with next := none })
  | none =>
    match getParam gets "next" with
    | some n => (n, sess)
    | none =>
      match getParam posts "next" with
      | some n => (n, sess)
      | none => (s.loginRedirectUrl.getD "/", sess)

/-- `post_disconnect_redirect_url(instance, request=None)`: the object's own
`get_absolute_url` if it has one, else the session override when a request
was passed, else the configured URL if non-empty, else the root. -/
def post_disconnect_redirect_url (inst : ConnObj) (request : Option Session)
    (s : Settings) : String :=
  match inst.canonicalUrl with
  | some u => u
  | none =>
    match request with
    | some sess =>
      match sess.disconnectUrl with
      | some u => u
      | none => if s.disconnectUrl != "" then s.disconnectUrl else "/"
    | none => if s.disconnectUrl != "" then s.disconnectUrl else "/"

/-- Result of the `disconnect` view. -/
inductive DisconnectResult where
  | confirmRender (profilePk : Nat) (objectPk : Nat)
  | redirect (url : String)
  | crash
deriving DecidableEq

/-- `disconnect(request, network, object_type, object_id)`: look up the
profile of provider `provider` bound to `(ctype, objectId)`; on POST delete it
and redirect via `post_disconnect_redirect_url(content_object)` — note the
source passes no `request` there — otherwise render the confirmation page. -/
def disconnect (req : Request) (s : Settings) (db : List Profile)
    (provider : Provider) (ctype : CType) (objectId : Nat)
    (content_object : ConnObj) : DisconnectResult × List Profile :=
  match dbGet db (fun p => p.provider == provider && p.contentType == some ctype &&
                           p.objectId == some objectId) with
  | .found profile =>
    if req.isPost then
      (.redirect (post_disconnect_redirect_url content_object none s),
       db.filter (fun q => !(q.provider == provider && q.pk == profile.pk)))
    else
      (.confirmRender profile.pk content_object.pk, db)
  | _ => (.crash, db)

/-- `_authenticate_login_redirect(request)`: authenticate the session-stored
profile, log the user in, delete both `socialregistration_*` session keys and
redirect to `_get_next`.  `none` models the crash when the profile key is
missing or `authenticate()` yields no user (`login(request, None)`). -/
def authenticate_login_redirect (sess : Session) (gets posts : List (String × String))
    (s : Settings) (users : List SUser) : Option (Nat × String × Session) :=
  match sess.srProfile with
  | none => none
  | some p =>
    match profileAuthenticate users p with
    | none => none
    | some u =>
      let sess1 : Session := { sess with srUser := none, srProfile := none }
      let r := get_next sess1 gets posts s
      some (u.pk, r.1, r.2)

/-- Outcome of `UserForm` validation. -/
inductive FormCheck where
  | ok
  | existingUser
  | invalid
deriving DecidableEq

/-- Modelled from the spec: `UserForm` validation — valid when the submitted
username is non-empty and not held by any existing account; a collision with
an existing account raises `ExistingUser`. -/
def userFormCheck (users : List SUser) (username : String) : FormCheck :=
  if username == "" then .invalid
  else if users.any (fun u => u.username == username) then .existingUser
  else .ok

/-- Modelled from the spec: `ClaimForm` — claiming an existing
password-protected account: valid exactly when the submitted password
authenticates the colliding account (accounts whose password is the unusable
sentinel cannot be claimed). -/
def claimFormValid (users : List SUser) (username password : String) : Option SUser :=
  match users.find? (fun u => u.username == username) with
  | some u => if checkPassword u.password password then some u else none
  | none => none

/-- Result of the `setup` view. -/
inductive SetupResult where
  | expiredRender
  | formRender
  | claimRender
  | redirect (userPk : Nat) (url : String)
  | crash
deriving DecidableEq

/-- The tail every successful `setup` branch runs:
`return _authenticate_login_redirect(request)`. -/
def finishLogin (sess : Session) (gets posts : List (String × String)) (s : Settings)
    (users : List SUser) (profiles : List Profile) :
    SetupResult × List SUser × List Profile × Session :=
  match authenticate_login_redirect sess gets posts s users with
  | some r => (.redirect r.1 r.2.1, users, profiles, r.2.2)
  | none => (.crash, users, profiles, sess)

/-- `setup(request)`: the post-authentication account setup view.
`freshUsername` stands for the `str(uuid.uuid4())` draw of the
auto-provisioning branch. -/
def setup (req : Request) (s : Settings) (users : List SUser) (profiles : List Profile)
    (freshUsername : String) : SetupResult × List SUser × List Profile × Session :=
  match req.session.srUser, req.session.srProfile with
  | some socialUser, some socialProfile =>
    match profiles.filter (fun p => p.provider == socialProfile.provider &&
                                    p.remoteId == socialProfile.remoteId) with
    | e :: _ =>
      let bound : Profile :=
        { socialProfile with
          pk := freshProfilePk profiles
          contentType := e.contentType
          objectId := e.objectId }
      let sess1 : Session := { req.session with srProfile := some bound }
      finishLogin sess1 req.gets req.posts s users (profiles ++ [bound])
    | [] =>
      if s.generateUsername then
        let name := (freshUsername.toList.take 30).asString
        let newU : SUser := { socialUser with pk := freshUserPk users, username := name }
        let users1 := (users ++ [newU]).map (fun u =>
          if u.pk == newU.pk then { u with password := unusablePassword } else u)
        let bound : Profile :=
          { socialProfile with
            pk := freshProfilePk profiles
            contentType := some CType.user
            objectId := some newU.pk }
        let sess1 : Session := { req.session with srProfile := some bound }
        finishLogin sess1 req.gets req.posts s users1 (profiles ++ [bound])
      else
        if !req.isPost then (.formRender, users, profiles, req.session)
        else
          let name := (getParam req.posts "username").getD ""
          match userFormCheck users name with
          | .ok =>
            let newU : SUser := { socialUser with pk := freshUserPk users, username := name }
            let users1 := (users ++ [newU]).map (fun u =>
              if u.pk == newU.pk then { u with password := unusablePassword } else u)
            let bound : Profile :=
              { socialProfile with
                pk := freshProfilePk profiles
                contentType := some CType.user
                objectId := some newU.pk }
            let sess1 : Session := { req.session with srProfile := some bound }
            finishLogin sess1 req.gets req.posts s users1 (profiles ++ [bound])
          | .existingUser =>
            if (getParam req.posts "submitted").isSome then
              match claimFormValid users name ((getParam req.posts "password").getD "") with
              | some claimed =>
                let bound : Profile :=
                  { socialProfile with
                    pk := freshProfilePk profiles
                    contentType := some CType.user
                    objectId := some claimed.pk }
                let sess1 : Session := { req.session with srProfile := some bound }
                finishLogin sess1 req.gets req.posts s users (profiles ++ [bound])
              | none => (.claimRender, users, profiles, req.session)
            else (.claimRender, users, profiles, req.session)
          | .invalid => (.formRender, users, profiles, req.session)
  | _, _ => (.expiredRender, users, profiles, req.session)

/-- Result of the `facebook_login` view. -/
inductive FbLoginResult where
  | errorRender
  | setupRedirect
  | inactiveRender
  | loginRedirect (userPk : Nat) (url : String)
deriving DecidableEq

/-- `facebook_login(request)`: error render when the middleware offers no
uid; on an unknown uid stash the pending shell user and profile in the session
and redirect to setup; otherwise log the matched user in (or render the
inactive-account page). -/
def facebook_login (req : Request) (s : Settings) (db : List Profile)
    (users : List SUser) : FbLoginResult × Session :=
  match req.facebookUid with
  | none => (.errorRender, req.session)
  | some uid =>
    match authenticateBy db users Provider.facebook uid with
    | none =>
      let sess1 : Session := { req.session with
        srUser := some blankUser,
        srProfile := some { provider := Provider.facebook, remoteId := uid } }
      let r := get_next sess1 req.gets req.posts s
      (.setupRedirect, { r.2 with next := some r.1 })
    | some u =>
      if u.isActive then
        let r := get_next req.session req.gets req.posts s
        (.loginRedirect u.pk r.1, r.2)
      else (.inactiveRender, req.session)

/-- `get_object(info)`: resolve the connect target named by the `a`/`m`/`i`
GET parameters.  The source condition `if 'a' and 'm' in info` tests only
membership of `'m'`; a missing `'a'`/`'i'` key or unresolvable object then
raises (`.error`). -/
def get_object (objs : List ConnObj) (info : List (String × String)) :
    Except Unit (Option ConnObj) :=
  if (getParam info "m").isSome then
    match getParam info "a", getParam info "i" with
    | some a, some i =>
      match objs.find? (fun o => o.ctype == CType.obj a ((getParam info "m").getD "") &&
                                 toString o.pk == i) with
      | some o => .ok (some o)
      | none => .error ()
    | _, _ => .error ()
  else .ok none

/-- Result of the `facebook_connect` view. -/
inductive FbConnectResult where
  | redirect (url : String)
  | errorRender
  | crash
deriving DecidableEq

/-- The shared tail of `facebook_connect`: the `_get_next` call inside the
`logger.info` at line 269 (evaluated eagerly, consuming the session `next`
key) followed by the `_get_next` that produces the actual redirect. -/
def fb_connect_finish (sess : Session) (gets posts : List (String × String))
    (s : Settings) (db1 : List Profile) : FbConnectResult × List Profile × Session :=
  let rA := get_next sess gets posts s
  let rB := get_next rA.2 gets posts s
  (.redirect rB.1, db1, rB.2)

/-- `facebook_connect(request)`: attach Facebook credentials either to the
GET-designated connect object or to the authenticated user.  On an existing
profile the source updates `consumer_key` and assigns `profile.secret` — a
non-model attribute, so `consumer_secret` is not persisted. -/
def facebook_connect (req : Request) (s : Settings) (objs : List ConnObj)
    (db : List Profile) : FbConnectResult × List Profile × Session :=
  match get_object objs req.gets with
  | .error _ => (.crash, db, req.session)
  | .ok connect_object =>
    match req.facebookUser with
    | none =>
      match req.httpReferer with
      | some r => (.redirect r, db, req.session)
      | none =>
        let r := get_next req.session req.gets req.posts s
        (.redirect r.1, db, r.2)
    | some fb =>
      match connect_object with
      | some obj =>
        match dbGet db (fun p => p.provider == Provider.facebook &&
            p.remoteId == (req.facebookUid.getD "") &&
            p.contentType == some obj.ctype && p.objectId == some obj.pk) with
        | .found prof =>
          fb_connect_finish req.session req.gets req.posts s
            (db.map (fun q => if q.provider == Provider.facebook && q.pk == prof.pk then
                                { q with consumerKey := fb.accessToken } else q))
        | .notFound =>
          fb_connect_finish req.session req.gets req.posts s
            (db ++ [{ pk := freshProfilePk db, provider := Provider.facebook,
                      remoteId := req.facebookUid.getD "", contentType := some obj.ctype,
                      objectId := some obj.pk, consumerKey := fb.accessToken,
                      consumerSecret := fb.secret }])
        | .multiple => (.crash, db, req.session)
      | none =>
        match req.facebookUid, req.user with
        | some uid, some u =>
          match dbGet db (fun p => p.provider == Provider.facebook && p.remoteId == uid &&
                                   p.contentType == some CType.user) with
          | .found prof =>
            fb_connect_finish req.session req.gets req.posts s
              (db.map (fun q => if q.provider == Provider.facebook && q.pk == prof.pk then
                                  { q with consumerKey := fb.accessToken } else q))
          | .notFound =>
            fb_connect_finish req.session req.gets req.posts s
              (db ++ [{ pk := freshProfilePk db, provider := Provider.facebook,
                        remoteId := uid, contentType := some CType.user,
                        objectId := some u.pk, consumerKey := fb.accessToken,
                        consumerSecret := fb.secret }])
          | .multiple => (.crash, db, req.session)
        | _, _ => (.errorRender, db, req.session)

/-- Result of the `twitter` view. -/
inductive TwitterResult where
  | redirect (url : String)
  | setupRedirect
  | inactiveRender
  | crash
deriving DecidableEq

/-- The `oauth_token` read in `twitter` (views.py lines 303-309): from
`oauth_api.twitter.com_access_token`, falling back to
`oauth_twitter.com_access_token`, falling back to `''`. -/
def twitter_oauth_token (sess : Session) : String :=
  match sess.oauthApiTwitterToken with
  | some t => t.1
  | none =>
    match sess.oauthTwitterToken with
    | some t => t.1
    | none => ""

/-- The `oauth_token_secret` read in `twitter` (views.py lines 310-316). -/
def twitter_oauth_token_secret (sess : Session) : String :=
  match sess.oauthApiTwitterToken with
  | some t => t.2
  | none =>
    match sess.oauthTwitterToken with
    | some t => t.2
    | none => ""

/-- `twitter(request)`: the Twitter OAuth callback.  Binds the identity to the
session-stored connect object when present, else to the authenticated user,
else resolves/enters the setup flow.  Note line 344 of the source: in the
authenticated-user connect branch a `logger.debug` call evaluates
`_get_next(request)` (consuming the session `next` key) before the
`_get_next` call that produces the redirect. -/
def twitter (req : Request) (s : Settings) (db : List Profile) (users : List SUser)
    (user_info_id : String) (user_info_screen_name : String) :
    TwitterResult × List Profile × Session :=
  let oauth_token := twitter_oauth_token req.session
  let oauth_token_secret := twitter_oauth_token_secret req.session
  match req.session.connectObject with
  | some obj =>
    match dbGet db (fun p => p.provider == Provider.twitter && p.remoteId == user_info_id &&
                             p.contentType == some obj.ctype && p.objectId == some obj.pk) with
    | .multiple => (.crash, db, req.session)
    | g =>
      let db1 :=
        match g with
        | .notFound =>
          db ++ [{ pk := freshProfilePk db, provider := Provider.twitter,
                   remoteId := user_info_id, contentType := some obj.ctype,
                   objectId := some obj.pk, consumerKey := oauth_token,
                   consumerSecret := oauth_token_secret,
                   screenname := user_info_screen_name }]
        | _ => db
      let sess1 : Session := { req.session with connectObject := none }
      let r := get_next sess1 req.gets req.posts s
      (.redirect r.1, db1, r.2)
  | none =>
    match req.user with
    | some u =>
      match dbGet db (fun p => p.provider == Provider.twitter && p.remoteId == user_info_id &&
                               p.contentType == some CType.user) with
      | .multiple => (.crash, db, req.session)
      | g =>
        let db1 :=
          match g with
          | .notFound =>
            db ++ [{ pk := freshProfilePk db, provider := Provider.twitter,
                     remoteId := user_info_id, contentType := some CType.user,
                     objectId := some u.pk, consumerKey := oauth_token,
                     consumerSecret := oauth_token_secret,
                     screenname := user_info_screen_name }]
          | _ => db
        let rA := get_next req.session req.gets req.posts s
        let rB := get_next rA.2 req.gets req.posts s
        (.redirect rB.1, db1, rB.2)
    | none =>
      match authenticateBy db users Provider.twitter user_info_id with
      | none =>
        let sess1 : Session := { req.session with
          srProfile := some { provider := Provider.twitter, remoteId := user_info_id,
                              consumerKey := oauth_token,
                              consumerSecret := oauth_token_secret,
                              screenname := user_info_screen_name },
          srUser := some blankUser }
        let r := get_next sess1 req.gets req.posts s
        (.setupRedirect, db, { r.2 with next := some r.1 })
      | some u =>
        if u.isActive then
          let r := get_next req.session req.gets req.posts s
          (.redirect r.1, db, r.2)
        else (.inactiveRender, db, req.session)

/-- Result of the `openid_callback` view. -/
inductive OpenidResult where
  | redirect (url : String)
  | setupRedirect
  | inactiveRender
  | invalidRender
  | crash
deriving DecidableEq

/-- `openid_callback(request)`: on a valid assertion, bind the identity to the
session-stored connect object when present, else to the authenticated user,
else resolve/enter the setup flow.  In the logged-in branches a `logger`
call evaluates `_get_next(request)` before the redirecting call. -/
def openid_callback (req : Request) (s : Settings) (db : List Profile)
    (users : List SUser) (client_valid : Bool) (identity : String)
    (current_site : Nat) : OpenidResult × List Profile × Session :=
  match client_valid with
  | false => (.invalidRender, db, req.session)
  | true =>
    match req.session.connectObject with
    | some obj =>
      match dbGet db (fun p => p.provider == Provider.openid && p.remoteId == identity &&
                               p.contentType == some obj.ctype &&
                               p.objectId == some obj.pk) with
      | .multiple => (.crash, db, req.session)
      | g =>
        let db1 :=
          match g with
          | .notFound =>
            db ++ [{ pk := freshProfilePk db, provider := Provider.openid,
                     remoteId := identity, contentType := some obj.ctype,
                     objectId := some obj.pk }]
          | _ => db
        let sess1 : Session := { req.session with connectObject := none }
        let r := get_next sess1 req.gets req.posts s
        (.redirect r.1, db1, r.2)
    | none =>
      match req.user with
      | some u =>
        match dbGet db (fun p => p.provider == Provider.openid && p.remoteId == identity &&
                                 p.contentType == some CType.user &&
                                 p.site == current_site) with
        | .multiple => (.crash, db, req.session)
        | g =>
          let db1 :=
            match g with
            | .notFound =>
              db ++ [{ pk := freshProfilePk db, provider := Provider.openid,
                       remoteId := identity, contentType := some CType.user,
                       objectId := some u.pk, site := current_site }]
            | _ => db
          let rA := get_next req.session req.gets req.posts s
          let rB := get_next rA.2 req.gets req.posts s
          (.redirect rB.1, db1, rB.2)
      | none =>
        match authenticateBy db users Provider.openid identity with
        | none =>
          (.setupRedirect, db, { req.session with
            srUser := some blankUser,
            srProfile := some { provider := Provider.openid, remoteId := identity } })
        | some u =>
          if u.isActive then
            let rA := get_next req.session req.gets req.posts s
            let rB := get_next rA.2 req.gets req.posts s
            (.redirect rB.1, db, rB.2)
          else (.inactiveRender, db, req.session)


/-! ## Helper lemmas -/

/-- A row reported by `objects.get` belongs to the table and satisfies the
query predicate. -/
theorem dbGet_found_sat {l : List Profile} {pred : Profile → Bool} {p : Profile}
    (h : dbGet l pred = .found p) : p ∈ l ∧ pred p = true := by
  unfold dbGet at h
  have hp : p ∈ l.filter pred := by
    cases hf : l.filter pred with
    | nil => rw [hf] at h; cases h
    | cons a t =>
      cases t with
      | nil => rw [hf] at h; cases h; exact List.mem_singleton.mpr rfl
      | cons b t' => rw [hf] at h; cases h
  exact ⟨(List.mem_filter.mp hp).1, (List.mem_filter.mp hp).2⟩

/-- `_get_next` only ever touches the `next` session key. -/
theorem get_next_preserves (sess : Session) (gets posts : List (String × String))
    (s : Settings) :
    (get_next sess gets posts s).2.srUser = sess.srUser ∧
    (get_next sess gets posts s).2.srProfile = sess.srProfile ∧
    (get_next sess gets posts s).2.connectObject = sess.connectObject := by
  unfold get_next
  cases sess.next with
  | some n => exact ⟨rfl, rfl, rfl⟩
  | none =>
    cases getParam gets "next" with
    | some n => exact ⟨rfl, rfl, rfl⟩
    | none =>
      cases getParam posts "next" with
      | some n => exact ⟨rfl, rfl, rfl⟩
      | none => exact ⟨rfl, rfl, rfl⟩

/-- When the session holds a `next` value, `_get_next` returns it and deletes
the key. -/
theorem get_next_hit (sess : Session) (gets posts : List (String × String))
    (s : Settings) (v : String) (h : sess.next = some v) :
    get_next sess gets posts s = (v, { sess with next := none }) := by
  unfold get_next
  rw [h]

/-- When neither the session nor the parameters carry `next`, `_get_next`
returns the configured default (falling back to the root) and leaves the
session unchanged. -/
theorem get_next_miss (sess : Session) (gets posts : List (String × String))
    (s : Settings) (h1 : sess.next = none) (h2 : getParam gets "next" = none)
    (h3 : getParam posts "next" = none) :
    get_next sess gets posts s = (s.loginRedirectUrl.getD "/", sess) := by
  unfold get_next
  rw [h1, h2, h3]

/-- Every member's key is bounded by the running maximum. -/
theorem pk_le_foldr_max (users : List SUser) (u : SUser) (h : u ∈ users) :
    u.pk ≤ (users.map (fun x => x.pk)).foldr Nat.max 0 := by
  induction users with
  | nil => cases h
  | cons a t ih =>
    rcases List.mem_cons.mp h with h' | h'
    · subst h'; exact Nat.le_max_left _ _
    · exact Nat.le_trans (ih h') (Nat.le_max_right _ _)

/-- The autoincrement key of an insert collides with no existing row. -/
theorem freshUserPk_not_mem (users : List SUser) :
    ∀ u ∈ users, u.pk ≠ freshUserPk users := by
  intro u hu h
  have := pk_le_foldr_max users u hu
  rw [h] at this
  unfold freshUserPk at this
  omega

/-- Effect of `user.save()` after `set_unusable_password()`: only the freshly
inserted row is rewritten. -/
theorem save_unusable (users : List SUser) (newU : SUser) (k : Nat)
    (hk : newU.pk = k) (h : ∀ u ∈ users, u.pk ≠ k) :
    (users ++ [newU]).map (fun u =>
        if u.pk == k then { u with password := unusablePassword } else u) =
      users ++ [{ newU with password := unusablePassword }] := by
  subst hk
  induction users with
  | nil => simp
  | cons a t ih =>
    have ha : (a.pk == newU.pk) = false :=
      beq_eq_false_iff_ne.mpr (h a (List.mem_cons_self a t))
    simp only [List.cons_append, List.map_cons, ha, Bool.false_eq_true, if_false]
    rw [ih (fun u hu => h u (List.mem_cons_of_mem a hu))]

/-- `find?` over a store whose only row with the sought key is the appended
one. -/
theorem find_append_last (users : List SUser) (w : SUser) (k : Nat)
    (hk : w.pk = k) (h : ∀ u ∈ users, u.pk ≠ k) :
    (users ++ [w]).find? (fun u => u.pk == k) = some w := by
  subst hk
  induction users with
  | nil => simp [List.find?]
  | cons a t ih =>
    have ha : (a.pk == w.pk) = false :=
      beq_eq_false_iff_ne.mpr (h a (List.mem_cons_self a t))
    simp only [List.cons_append, List.find?, ha]
    exact ih (fun u hu => h u (List.mem_cons_of_mem a hu))

/-- A row rewrite that does not change the fields a filter reads preserves the
number of matching rows. -/
theorem filter_length_map (l : List Profile) (g : Profile → Profile)
    (pred : Profile → Bool) (h : ∀ q, pred (g q) = pred q) :
    ((l.map g).filter pred).length = (l.filter pred).length := by
  induction l with
  | nil => rfl
  | cons a t ih =>
    simp only [List.map_cons, List.filter_cons, h a]
    cases pred a <;> simp [ih]

/-! ## Claim C9 -/

/-- Claim C9: a request reaching `setup` with no pending-registration state in
the session (e.g. direct navigation) gets the distinct expired/invalid-session
error render rather than a crash, and no account or profile is created. -/
theorem c9_setup_missing_pending (req : Request) (s : Settings) (users : List SUser)
    (profiles : List Profile) (freshUsername : String)
    (h : req.session.srUser = none ∨ req.session.srProfile = none) :
    setup req s users profiles freshUsername =
      (.expiredRender, users, profiles, req.session) := by
  unfold setup
  rcases h with h | h
  · rw [h]
  · cases hs : req.session.srUser with
    | none => rfl
    | some su => rw [h]

theorem c9_setup_missing_pending_witness :
    setup {} {} [] [] "x" = (SetupResult.expiredRender, [], [], ({} : Session)) :=
  c9_setup_missing_pending {} {} [] [] "x" (Or.inl rfl)

/-! ## Claim C5 -/

/-- Claim C5: `disconnect` is two-phase — a non-POST request deletes nothing
and renders the confirmation page; only the confirming POST request removes
the profile row. -/
theorem c5_disconnect_two_phase (req : Request) (s : Settings) (db : List Profile)
    (provider : Provider) (ctype : CType) (objectId : Nat) (obj : ConnObj) (p : Profile)
    (hfound : dbGet db (fun q => q.provider == provider && q.contentType == some ctype &&
                                 q.objectId == some objectId) = .found p) :
    (req.isPost = false →
      disconnect req s db provider ctype objectId obj =
        (.confirmRender p.pk obj.pk, db)) ∧
    (req.isPost = true →
      (disconnect req s db provider ctype objectId obj).2 =
        db.filter (fun q => !(q.provider == provider && q.pk == p.pk)) ∧
      ∀ q ∈ (disconnect req s db provider ctype objectId obj).2,
        ¬(q.provider = provider ∧ q.pk = p.pk)) := by
  have hd : disconnect req s db provider ctype objectId obj =
      if req.isPost then
        (.redirect (post_disconnect_redirect_url obj none s),
         db.filter (fun q => !(q.provider == provider && q.pk == p.pk)))
      else (.confirmRender p.pk obj.pk, db) := by
    unfold disconnect
    rw [hfound]
  constructor
  · intro h
    rw [hd, h]
    simp
  · intro h
    rw [hd, h]
    simp only [if_true]
    refine ⟨by trivial, ?_⟩
    intro q hq hcontra
    have hmem := List.mem_filter.mp hq
    have hb : (q.provider == provider && q.pk == p.pk) = true := by
      simp [beq_iff_eq, hcontra.1, hcontra.2]
    simp [hb] at hmem

def exP5 : Profile :=
  { pk := 5, provider := Provider.facebook, remoteId := "1",
    contentType := some (CType.obj "a" "b"), objectId := some 9 }

def exO5 : ConnObj := { ctype := CType.obj "a" "b", pk := 9 }

theorem c5_disconnect_two_phase_witness :
    disconnect {} {} [exP5] Provider.facebook (CType.obj "a" "b") 9 exO5 =
      (.confirmRender 5 9, [exP5]) ∧
    (disconnect { isPost := true } {} [exP5] Provider.facebook (CType.obj "a" "b") 9
      exO5).2 = [] :=
  ⟨(c5_disconnect_two_phase {} {} [exP5] Provider.facebook (CType.obj "a" "b") 9 exO5
      exP5 rfl).1 rfl,
   (((c5_disconnect_two_phase { isPost := true } {} [exP5] Provider.facebook
      (CType.obj "a" "b") 9 exO5 exP5 rfl).2 rfl).1).trans rfl⟩

/-! ## Claim C6 -/

def exO6 : ConnObj := { ctype := CType.obj "app" "thing", pk := 9 }

def exSess6 : Session := { disconnectUrl := some "/after" }

def exP6 : Profile :=
  { pk := 5, provider := Provider.facebook, remoteId := "77",
    contentType := some (CType.obj "app" "thing"), objectId := some 9 }

/-- Claim C6: after a confirmed disconnect of an object with no canonical URL
and a session-stored override, the view redirects to the root, not to the
session override: the source calls `post_disconnect_redirect_url` without the
`request` argument, so the session step of the priority order is skipped —
even though the function itself honours the override when a request is
passed. -/
theorem c6_disconnect_skips_session_override :
    disconnect { isPost := true, session := exSess6 } {} [exP6] Provider.facebook
        (CType.obj "app" "thing") 9 exO6 = (.redirect "/", []) ∧
    post_disconnect_redirect_url exO6 (some exSess6) {} = "/after" :=
  ⟨rfl, rfl⟩

/-! ## Claim C8 -/

/-- Claim C8 counterexample: an empty-string Facebook uid is offered
credentials for the code — the view does not short-circuit with the error
render but stores pending-registration session state and redirects to setup,
contradicting the claim for the "empty" case of "(empty or absent
remote_id)". -/
theorem c8_empty_uid_counterexample :
    (facebook_login { facebookUid := some "" } {} [] []).1 =
      FbLoginResult.setupRedirect ∧
    ((facebook_login { facebookUid := some "" } {} [] []).2.srProfile).isSome = true :=
  ⟨rfl, rfl⟩

/-- Claim C8 (amended): an absent (`None`) Facebook uid short-circuits with
the distinct error render; the session is left unchanged and no
pending-registration state is created. -/
theorem c8_absent_uid_short_circuit (req : Request) (s : Settings) (db : List Profile)
    (users : List SUser) (h : req.facebookUid = none) :
    facebook_login req s db users = (.errorRender, req.session) := by
  unfold facebook_login
  rw [h]

theorem c8_absent_uid_short_circuit_witness :
    facebook_login {} {} [] [] = (FbLoginResult.errorRender, ({} : Session)) :=
  c8_absent_uid_short_circuit {} {} [] [] rfl

/-! ## Claim C4 -/

def exStaleProfile : Profile := { provider := Provider.twitter, remoteId := "999" }

def exSessC4 : Session := { srUser := some blankUser, srProfile := some exStaleProfile }

def exDbC4 : List Profile :=
  [{ pk := 1, provider := Provider.facebook, remoteId := "7",
     contentType := some CType.user, objectId := some 3 }]

def exUsersC4 : List SUser := [{ pk := 3, username := "al", password := "pw" }]

/-- Claim C4 counterexample: a `facebook_login` that matches an existing
profile directly logs the user in while stale pending-registration keys from
an earlier abandoned setup are still in the session — and leaves them there:
the post-login session still holds `socialregistration_profile`. -/
theorem c4_stale_pending_counterexample :
    (facebook_login { session := exSessC4, facebookUid := some "7" } {} exDbC4
      exUsersC4).1 = FbLoginResult.loginRedirect 3 "/" ∧
    (facebook_login { session := exSessC4, facebookUid := some "7" } {} exDbC4
      exUsersC4).2.srProfile = some exStaleProfile :=
  ⟨rfl, rfl⟩

def exBoundC4 : Profile :=
  { pk := 1, provider := Provider.facebook, remoteId := "7",
    contentType := some CType.user, objectId := some 3 }

def exSessC4b : Session := { srProfile := some exBoundC4 }

/-- Claim C4 (amended): every login that completes through
`_authenticate_login_redirect` — i.e. all setup-flow completions, including
the matched-existing-profile short-circuit — ends with both
`socialregistration_*` session keys cleared; direct provider logins such as
`facebook_login` do not clear pre-existing pending keys. -/
theorem c4_setup_logins_clear_pending (sess : Session)
    (gets posts : List (String × String)) (s : Settings) (users : List SUser)
    (out : Nat × String × Session)
    (h : authenticate_login_redirect sess gets posts s users = some out) :
    out.2.2.srUser = none ∧ out.2.2.srProfile = none := by
  unfold authenticate_login_redirect at h
  split at h
  · cases h
  · split at h
    · cases h
    · simp only [Option.some.injEq] at h
      subst h
      have hpres := get_next_preserves { sess with srUser := none, srProfile := none }
        gets posts s
      exact ⟨hpres.1, hpres.2.1⟩

theorem c4_setup_logins_clear_pending_witness :
    (3, "/", ({} : Session)).2.2.srUser = none ∧
    (3, "/", ({} : Session)).2.2.srProfile = none :=
  c4_setup_logins_clear_pending exSessC4b [] [] {} exUsersC4 (3, "/", ({} : Session)) rfl

/-! ## Claim C10 -/

/-- Claim C10: `_get_next` is not idempotent over a request whose session
stores `next` and whose GET/POST do not — the first call returns the session
value and deletes the key, the second returns the configured default
(`LOGIN_REDIRECT_URL`, falling back to `/`).  Consequently, in the `twitter`
view's authenticated-user connect path, where a logging statement invokes
`_get_next` before the call that produces the redirect, the redirect issued
is the default rather than the session-stored value. -/
theorem c10_get_next_consumed_by_logging :
    (∀ (sess : Session) (gets posts : List (String × String)) (s : Settings)
       (v : String),
       sess.next = some v → getParam gets "next" = none →
       getParam posts "next" = none →
       get_next sess gets posts s = (v, { sess with next := none }) ∧
       get_next { sess with next := none } gets posts s =
         (s.loginRedirectUrl.getD "/", { sess with next := none })) ∧
    (∀ (req : Request) (s : Settings) (db : List Profile) (users : List SUser)
       (tid sn : String) (u : SUser) (v : String),
       req.session.next = some v → getParam req.gets "next" = none →
       getParam req.posts "next" = none → req.session.connectObject = none →
       req.user = some u →
       dbGet db (fun p => p.provider == Provider.twitter && p.remoteId == tid &&
                          p.contentType == some CType.user) ≠ .multiple →
       (twitter req s db users tid sn).1 =
         TwitterResult.redirect (s.loginRedirectUrl.getD "/")) := by
  constructor
  · intro sess gets posts s v h1 h2 h3
    exact ⟨get_next_hit sess gets posts s v h1,
           get_next_miss { sess with next := none } gets posts s rfl h2 h3⟩
  · intro req s db users tid sn u v h1 h2 h3 hconn hu hmult
    unfold twitter
    rw [hconn, hu]
    cases hg : dbGet db (fun p => p.provider == Provider.twitter && p.remoteId == tid &&
                                  p.contentType == some CType.user) with
    | multiple => exact absurd hg hmult
    | found p0 =>
      simp only [get_next_hit req.session req.gets req.posts s v h1,
                 get_next_miss { req.session with next := none } req.gets req.posts s
                   rfl h2 h3]
    | notFound =>
      simp only [get_next_hit req.session req.gets req.posts s v h1,
                 get_next_miss { req.session with next := none } req.gets req.posts s
                   rfl h2 h3]

def exSessC10 : Session := { next := some "/target" }

def exUserC10 : SUser := { pk := 7 }

theorem c10_get_next_consumed_by_logging_witness :
    (get_next exSessC10 [] [] { loginRedirectUrl := some "/profile" } =
       ("/target", ({} : Session)) ∧
     get_next ({} : Session) [] [] { loginRedirectUrl := some "/profile" } =
       ("/profile", ({} : Session))) ∧
    (twitter { session := exSessC10, user := some exUserC10 }
       { loginRedirectUrl := some "/profile" } [] [] "42" "sn").1 =
      TwitterResult.redirect "/profile" :=
  ⟨c10_get_next_consumed_by_logging.1 exSessC10 [] []
     { loginRedirectUrl := some "/profile" } "/target" rfl rfl rfl,
   c10_get_next_consumed_by_logging.2 { session := exSessC10, user := some exUserC10 }
     { loginRedirectUrl := some "/profile" } [] [] "42" "sn" exUserC10 "/target"
     rfl rfl rfl rfl rfl (by decide)⟩

/-! ## Claim C2 -/

/-- Claim C2: on a callback carrying an explicitly supplied connect object in
the session, the created (or fetched) profile is bound to that domain object
and not to the authenticated user — the connect-object branch is taken no
matter what `request.user` is (the statements quantify over an arbitrary
`req`, including one with an authenticated user), and the connect object is
consumed from the session.  Shown for the `twitter` callback (create and
fetch cases) and the `openid_callback` (create case). -/
theorem c2_connect_object_wins :
    (∀ (req : Request) (s : Settings) (db : List Profile) (users : List SUser)
       (tid sn : String) (obj : ConnObj),
       req.session.connectObject = some obj →
       dbGet db (fun p => p.provider == Provider.twitter && p.remoteId == tid &&
                          p.contentType == some obj.ctype &&
                          p.objectId == some obj.pk) = .notFound →
       (twitter req s db users tid sn).2.1 =
         db ++ [{ pk := freshProfilePk db, provider := Provider.twitter,
                  remoteId := tid, contentType := some obj.ctype,
                  objectId := some obj.pk,
                  consumerKey := twitter_oauth_token req.session,
                  consumerSecret := twitter_oauth_token_secret req.session,
                  screenname := sn }] ∧
       (twitter req s db users tid sn).2.2.connectObject = none) ∧
    (∀ (req : Request) (s : Settings) (db : List Profile) (users : List SUser)
       (tid sn : String) (obj : ConnObj) (p0 : Profile),
       req.session.connectObject = some obj →
       dbGet db (fun p => p.provider == Provider.twitter && p.remoteId == tid &&
                          p.contentType == some obj.ctype &&
                          p.objectId == some obj.pk) = .found p0 →
       (twitter req s db users tid sn).2.1 = db ∧
       p0.contentType = some obj.ctype ∧ p0.objectId = some obj.pk) ∧
    (∀ (req : Request) (s : Settings) (db : List Profile) (users : List SUser)
       (identity : String) (site : Nat) (obj : ConnObj),
       req.session.connectObject = some obj →
       dbGet db (fun p => p.provider == Provider.openid && p.remoteId == identity &&
                          p.contentType == some obj.ctype &&
                          p.objectId == some obj.pk) = .notFound →
       (openid_callback req s db users true identity site).2.1 =
         db ++ [{ pk := freshProfilePk db, provider := Provider.openid,
                  remoteId := identity, contentType := some obj.ctype,
                  objectId := some obj.pk }] ∧
       (openid_callback req s db users true identity site).2.2.connectObject = none) := by
  refine ⟨?_, ?_, ?_⟩
  · intro req s db users tid sn obj hconn hget
    unfold twitter
    rw [hconn]
    simp only []
    rw [hget]
    refine ⟨rfl, ?_⟩
    exact (get_next_preserves { req.session with connectObject := none }
      req.gets req.posts s).2.2
  · intro req s db users tid sn obj p0 hconn hget
    unfold twitter
    rw [hconn]
    simp only []
    rw [hget]
    have hsat := (dbGet_found_sat hget).2
    simp only [Bool.and_eq_true, beq_iff_eq] at hsat
    exact ⟨rfl, hsat.1.2, hsat.2⟩
  · intro req s db users identity site obj hconn hget
    unfold openid_callback
    rw [hconn]
    simp only []
    rw [hget]
    refine ⟨rfl, ?_⟩
    exact (get_next_preserves { req.session with connectObject := none }
      req.gets req.posts s).2.2

def exObjC2 : ConnObj := { ctype := CType.obj "news" "article", pk := 42 }

def exUserC2 : SUser := { pk := 5, username := "eve", password := "pw" }

def exReqC2 : Request :=
  { session := { connectObject := some exObjC2 }, user := some exUserC2 }

def exDbC2 : List Profile :=
  [{ pk := 1, provider := Provider.twitter, remoteId := "42",
     contentType := some (CType.obj "news" "article"), objectId := some 42 }]

theorem c2_connect_object_wins_witness :
    ((twitter exReqC2 {} [] [] "42" "sc").2.1 =
       [{ pk := 1, provider := Provider.twitter, remoteId := "42",
          contentType := some (CType.obj "news" "article"), objectId := some 42,
          consumerKey := "", consumerSecret := "", screenname := "sc", site := 1 }] ∧
     (twitter exReqC2 {} [] [] "42" "sc").2.2.connectObject = none) ∧
    ((twitter exReqC2 {} exDbC2 [] "42" "sc").2.1 = exDbC2 ∧
     (CType.obj "news" "article" : CType) = CType.obj "news" "article" ∧
     (42 : Nat) = 42) ∧
    ((openid_callback exReqC2 {} [] [] true "https://example.com/alice" 1).2.1 =
       [{ pk := 1, provider := Provider.openid, remoteId := "https://example.com/alice",
          contentType := some (CType.obj "news" "article"), objectId := some 42 }] ∧
     (openid_callback exReqC2 {} [] [] true "https://example.com/alice" 1).2.2.connectObject =
       none) := by
  refine ⟨c2_connect_object_wins.1 exReqC2 {} [] [] "42" "sc" exObjC2 rfl (by decide), ?_, ?_⟩
  · have h := c2_connect_object_wins.2.1 exReqC2 {} exDbC2 [] "42" "sc" exObjC2
      (exDbC2.get ⟨0, by decide⟩) rfl (by decide)
    exact ⟨h.1, by decide, by decide⟩
  · exact c2_connect_object_wins.2.2 exReqC2 {} [] [] "https://example.com/alice" 1
      exObjC2 rfl (by decide)

/-! ## Claim C1 -/

/-- Number of Facebook profile rows for `(uid, User)` — the rows the
authenticated-user connect path of `facebook_connect` queries. -/
def fbUserProfileCount (db : List Profile) (uid : String) : Nat :=
  (db.filter (fun p => p.provider == Provider.facebook && p.remoteId == uid &&
                       p.contentType == some CType.user)).length

def exProfC1t : Profile :=
  { pk := 1, provider := Provider.twitter, remoteId := "42",
    contentType := some CType.user, objectId := some 7, consumerKey := "oldtok",
    consumerSecret := "oldsec", screenname := "sn" }

def exDbC1 : List Profile := [exProfC1t]

def exUserC1 : SUser := { pk := 7, username := "bob", password := "x" }

def exReqC1 : Request :=
  { session := { oauthApiTwitterToken := some ("newtok", "newsec") },
    user := some exUserC1 }

/-- Claim C1 counterexample: in the `twitter` view's authenticated-user
connect path, an already-linked identity is fetched but its stored
credentials are **not** updated — the callback carries the fresh token
`newtok`, yet after the run the stored profile still holds `oldtok`.  (No
second profile is created either, but the claim's "updates the stored
credentials in place" is false here.) -/
theorem c1_twitter_connect_counterexample :
    twitter_oauth_token exReqC1.session = "newtok" ∧
    (twitter exReqC1 {} exDbC1 [] "42" "sn").2.1.map (fun p => p.consumerKey) =
      ["oldtok"] ∧
    ("oldtok" : String) ≠ "newtok" :=
  ⟨rfl, rfl, by decide⟩

/-- Claim C1 (amended): repeated connect never creates a second profile.  In
`facebook_connect`'s authenticated-user path an existing `(uid, User)` profile
is rewritten in place — the store keeps its length and its `(uid, User)` row
count, and the row now carries the fresh access token while its stored
`consumer_secret` is untouched (the source assigns `profile.secret`, a
non-model attribute).  In the `twitter` path the store is returned entirely
unchanged: the existing profile is fetched and its credentials left as they
were. -/
theorem c1_amended_connect_idempotent :
    (∀ (req : Request) (s : Settings) (objs : List ConnObj) (db : List Profile)
       (uid : String) (u : SUser) (fb : FBUser) (prof : Profile),
       get_object objs req.gets = .ok none →
       req.facebookUser = some fb → req.facebookUid = some uid → req.user = some u →
       dbGet db (fun p => p.provider == Provider.facebook && p.remoteId == uid &&
                          p.contentType == some CType.user) = .found prof →
       (facebook_connect req s objs db).2.1.length = db.length ∧
       fbUserProfileCount (facebook_connect req s objs db).2.1 uid =
         fbUserProfileCount db uid ∧
       { prof with consumerKey := fb.accessToken } ∈ (facebook_connect req s objs db).2.1) ∧
    (∀ (req : Request) (s : Settings) (db : List Profile) (users : List SUser)
       (tid sn : String) (u : SUser) (prof : Profile),
       req.session.connectObject = none → req.user = some u →
       dbGet db (fun p => p.provider == Provider.twitter && p.remoteId == tid &&
                          p.contentType == some CType.user) = .found prof →
       (twitter req s db users tid sn).2.1 = db) := by
  constructor
  · intro req s objs db uid u fb prof hobj hfb huid hu hget
    have hsat := dbGet_found_sat hget
    have hprov : prof.provider = Provider.facebook := by
      have hb := hsat.2
      simp only [Bool.and_eq_true, beq_iff_eq] at hb
      exact hb.1.1
    unfold facebook_connect
    rw [hobj]
    simp only []
    rw [hfb]
    simp only []
    rw [huid, hu]
    simp only []
    rw [hget]
    unfold fb_connect_finish
    refine ⟨?_, ?_, ?_⟩
    · exact List.length_map db _
    · unfold fbUserProfileCount
      refine filter_length_map db _ _ ?_
      intro q
      by_cases hc : (q.provider == Provider.facebook && q.pk == prof.pk) = true
      · rw [if_pos hc]
      · rw [if_neg hc]
    · have hself : (prof.provider == Provider.facebook && prof.pk == prof.pk) = true := by
        simp [hprov]
      have hmem := List.mem_map_of_mem
        (fun q => if q.provider == Provider.facebook && q.pk == prof.pk then
                    { q with consumerKey := fb.accessToken } else q) hsat.1
      simp only [] at hmem
      rw [if_pos hself] at hmem
      exact hmem
  · intro req s db users tid sn u prof hconn hu hget
    unfold twitter
    rw [hconn]
    simp only []
    rw [hu]
    simp only []
    rw [hget]

def exProfC1f : Profile :=
  { pk := 2, provider := Provider.facebook, remoteId := "9",
    contentType := some CType.user, objectId := some 4, consumerKey := "tokO",
    consumerSecret := "secO" }

def exUserC1f : SUser := { pk := 4, username := "u", password := "p" }

def exReqC1f : Request :=
  { user := some exUserC1f, facebookUid := some "9",
    facebookUser := some { accessToken := "tokN", secret := "secN" } }

theorem c1_amended_connect_idempotent_witness :
    ((facebook_connect exReqC1f {} [] [exProfC1f]).2.1.length = 1 ∧
     fbUserProfileCount (facebook_connect exReqC1f {} [] [exProfC1f]).2.1 "9" =
       fbUserProfileCount [exProfC1f] "9" ∧
     { exProfC1f with consumerKey := "tokN" } ∈
       (facebook_connect exReqC1f {} [] [exProfC1f]).2.1) ∧
    (twitter exReqC1 {} exDbC1 [] "42" "sn").2.1 = exDbC1 :=
  ⟨c1_amended_connect_idempotent.1 exReqC1f {} [] [exProfC1f] "9" exUserC1f
     { accessToken := "tokN", secret := "secN" } exProfC1f rfl rfl rfl rfl rfl,
   c1_amended_connect_idempotent.2 exReqC1 {} exDbC1 [] "42" "sn" exUserC1
     exProfC1t rfl rfl rfl⟩

/-! ## Claim C7 -/

/-- Claim C7: before presenting the username form, `setup` checks for an
existing profile of the same provider whose remote-id join key equals the
pending profile's remote id.  When one exists (bound to a local account), the
pending profile is silently bound to the same target and the user is logged
in without being prompted — no new account is created; and the shortcut never
fires on profiles of a different provider: when every profile sharing the
remote id belongs to a different provider, the username form is rendered as
usual. -/
theorem c7_same_provider_shortcut :
    (∀ (req : Request) (s : Settings) (users : List SUser) (profiles : List Profile)
       (fresh : String) (su : SUser) (sp e : Profile) (rest : List Profile)
       (upk : Nat) (u : SUser),
       req.session.srUser = some su → req.session.srProfile = some sp →
       profiles.filter (fun p => p.provider == sp.provider &&
                                 p.remoteId == sp.remoteId) = e :: rest →
       e.contentType = some CType.user → e.objectId = some upk →
       users.find? (fun x => x.pk == upk) = some u →
       setup req s users profiles fresh =
         (SetupResult.redirect u.pk
            (get_next { req.session with srUser := none, srProfile := none }
              req.gets req.posts s).1,
          users,
          profiles ++ [{ sp with pk := freshProfilePk profiles, contentType := e.contentType, objectId := e.objectId }],
          (get_next { req.session with srUser := none, srProfile := none }
            req.gets req.posts s).2)) ∧
    (∀ (req : Request) (s : Settings) (users : List SUser) (profiles : List Profile)
       (fresh : String) (su : SUser) (sp : Profile),
       req.session.srUser = some su → req.session.srProfile = some sp →
       (∀ p ∈ profiles, p.remoteId = sp.remoteId → p.provider ≠ sp.provider) →
       s.generateUsername = false → req.isPost = false →
       setup req s users profiles fresh =
         (SetupResult.formRender, users, profiles, req.session)) := by
  constructor
  · intro req s users profiles fresh su sp e rest upk u h1 h2 hfil hct hoid hfind
    unfold setup
    rw [h1, h2]
    simp only []
    rw [hfil]
    simp only [finishLogin, authenticate_login_redirect, profileAuthenticate]
    rw [hct, hoid]
    simp only []
    rw [hfind]
  · intro req s users profiles fresh su sp h1 h2 hdiff hgen hget
    have hfil : profiles.filter (fun p => p.provider == sp.provider &&
                                          p.remoteId == sp.remoteId) = [] := by
      rw [List.filter_eq_nil_iff]
      intro p hp
      simp only [Bool.and_eq_true, beq_iff_eq, not_and]
      intro hprov hrid
      exact absurd hprov (hdiff p hp hrid)
    unfold setup
    rw [h1, h2]
    simp only []
    rw [hfil, hgen, hget]
    rfl

def exSpC7 : Profile := { provider := Provider.openid, remoteId := "https://example.com/alice" }

def exEC7 : Profile :=
  { pk := 3, provider := Provider.openid, remoteId := "https://example.com/alice",
    contentType := some CType.user, objectId := some 8 }

def exUsersC7 : List SUser := [{ pk := 8, username := "alice", password := "!" }]

def exReqC7 : Request :=
  { session := { srUser := some blankUser, srProfile := some exSpC7 } }

def exPdiffC7 : Profile :=
  { pk := 3, provider := Provider.twitter, remoteId := "https://example.com/alice",
    contentType := some CType.user, objectId := some 8 }

theorem c7_same_provider_shortcut_witness :
    setup exReqC7 {} exUsersC7 [exEC7] "f" =
      (SetupResult.redirect 8 "/", exUsersC7,
       [exEC7, { pk := 4, provider := Provider.openid, remoteId := "https://example.com/alice", contentType := some CType.user, objectId := some 8 }],
       ({} : Session)) ∧
    setup exReqC7 {} exUsersC7 [exPdiffC7] "f" =
      (SetupResult.formRender, exUsersC7, [exPdiffC7], exReqC7.session) :=
  ⟨c7_same_provider_shortcut.1 exReqC7 {} exUsersC7 [exEC7] "f" blankUser exSpC7
     exEC7 [] 8 { pk := 8, username := "alice", password := "!" } rfl rfl rfl rfl rfl rfl,
   c7_same_provider_shortcut.2 exReqC7 {} exUsersC7 [exPdiffC7] "f" blankUser exSpC7
     rfl rfl (by decide) rfl rfl⟩

/-! ## Claim C3 -/

/-- Claim C3: a setup request submitting a username held by no existing
account — manual path with the generate-username setting off, or the
auto-provisioning path with it on — creates exactly one new local account and
exactly one ProviderProfile bound to it, sets the account's password to the
unusable sentinel (non-empty, never authenticatable by `checkPassword`), ends
in the authenticated redirect, and clears the pending-registration session
keys. -/
theorem c3_setup_creates_account :
    (∀ (req : Request) (s : Settings) (users : List SUser) (profiles : List Profile)
       (fresh : String) (su : SUser) (sp : Profile) (name : String),
       req.session.srUser = some su → req.session.srProfile = some sp →
       profiles.filter (fun p => p.provider == sp.provider &&
                                 p.remoteId == sp.remoteId) = [] →
       s.generateUsername = false → req.isPost = true →
       getParam req.posts "username" = some name → (name == "") = false →
       users.any (fun u => u.username == name) = false →
       setup req s users profiles fresh =
         (SetupResult.redirect (freshUserPk users)
            (get_next { req.session with srUser := none, srProfile := none }
              req.gets req.posts s).1,
          users ++ [{ su with pk := freshUserPk users, username := name, password := unusablePassword }],
          profiles ++ [{ sp with pk := freshProfilePk profiles, contentType := some CType.user, objectId := some (freshUserPk users) }],
          (get_next { req.session with srUser := none, srProfile := none }
            req.gets req.posts s).2) ∧
       (setup req s users profiles fresh).2.2.2.srUser = none ∧
       (setup req s users profiles fresh).2.2.2.srProfile = none) ∧
    (∀ (req : Request) (s : Settings) (users : List SUser) (profiles : List Profile)
       (fresh : String) (su : SUser) (sp : Profile),
       req.session.srUser = some su → req.session.srProfile = some sp →
       profiles.filter (fun p => p.provider == sp.provider &&
                                 p.remoteId == sp.remoteId) = [] →
       s.generateUsername = true →
       users.any (fun u => u.username == (fresh.toList.take 30).asString) = false →
       setup req s users profiles fresh =
         (SetupResult.redirect (freshUserPk users)
            (get_next { req.session with srUser := none, srProfile := none }
              req.gets req.posts s).1,
          users ++ [{ su with pk := freshUserPk users, username := (fresh.toList.take 30).asString, password := unusablePassword }],
          profiles ++ [{ sp with pk := freshProfilePk profiles, contentType := some CType.user, objectId := some (freshUserPk users) }],
          (get_next { req.session with srUser := none, srProfile := none }
            req.gets req.posts s).2) ∧
       (setup req s users profiles fresh).2.2.2.srUser = none ∧
       (setup req s users profiles fresh).2.2.2.srProfile = none) ∧
    (unusablePassword ≠ "" ∧
     ∀ attempt, checkPassword unusablePassword attempt = false) := by
  refine ⟨?_, ?_, by decide, fun a => rfl⟩
  · intro req s users profiles fresh su sp name h1 h2 hfil hgen hpost hname hne hnotaken
    have hfresh := freshUserPk_not_mem users
    have hcheck : userFormCheck users name = .ok := by
      simp [userFormCheck, hne, hnotaken]
    have hmain : setup req s users profiles fresh =
        (SetupResult.redirect (freshUserPk users)
           (get_next { req.session with srUser := none, srProfile := none }
             req.gets req.posts s).1,
         users ++ [{ su with pk := freshUserPk users, username := name, password := unusablePassword }],
         profiles ++ [{ sp with pk := freshProfilePk profiles, contentType := some CType.user, objectId := some (freshUserPk users) }],
         (get_next { req.session with srUser := none, srProfile := none }
           req.gets req.posts s).2) := by
      unfold setup
      rw [h1, h2]
      simp only []
      rw [hfil, hgen, hpost, hname]
      simp only [Option.getD_some]
      rw [hcheck]
      simp only []
      rw [save_unusable users { su with pk := freshUserPk users, username := name }
        (freshUserPk users) rfl hfresh]
      simp only [finishLogin, authenticate_login_redirect, profileAuthenticate]
      rw [find_append_last users
        { su with pk := freshUserPk users, username := name, password := unusablePassword }
        (freshUserPk users) rfl hfresh]
      rfl
    refine ⟨hmain, ?_, ?_⟩
    · rw [hmain]
      exact (get_next_preserves _ req.gets req.posts s).1
    · rw [hmain]
      exact (get_next_preserves _ req.gets req.posts s).2.1
  · intro req s users profiles fresh su sp h1 h2 hfil hgen hfree
    have hfresh := freshUserPk_not_mem users
    have hmain : setup req s users profiles fresh =
        (SetupResult.redirect (freshUserPk users)
           (get_next { req.session with srUser := none, srProfile := none }
             req.gets req.posts s).1,
         users ++ [{ su with pk := freshUserPk users, username := (fresh.toList.take 30).asString, password := unusablePassword }],
         profiles ++ [{ sp with pk := freshProfilePk profiles, contentType := some CType.user, objectId := some (freshUserPk users) }],
         (get_next { req.session with srUser := none, srProfile := none }
           req.gets req.posts s).2) := by
      unfold setup
      rw [h1, h2]
      simp only []
      rw [hfil, hgen]
      simp only []
      rw [save_unusable users
        { su with pk := freshUserPk users, username := (fresh.toList.take 30).asString }
        (freshUserPk users) rfl hfresh]
      simp only [finishLogin, authenticate_login_redirect, profileAuthenticate]
      rw [find_append_last users
        { su with pk := freshUserPk users, username := (fresh.toList.take 30).asString, password := unusablePassword }
        (freshUserPk users) rfl hfresh]
      rfl
    refine ⟨hmain, ?_, ?_⟩
    · rw [hmain]
      exact (get_next_preserves _ req.gets req.posts s).1
    · rw [hmain]
      exact (get_next_preserves _ req.gets req.posts s).2.1

def exSpC3 : Profile := { provider := Provider.openid, remoteId := "https://example.com/alice" }

def exReqC3 : Request :=
  { isPost := true, posts := [("username", "alice")],
    session := { srUser := some blankUser, srProfile := some exSpC3 } }

def exReqC3g : Request :=
  { session := { srUser := some blankUser, srProfile := some exSpC3 } }

theorem c3_setup_creates_account_witness :
    (setup exReqC3 {} [] [] "f" =
       (SetupResult.redirect 1 "/",
        [{ pk := 1, username := "alice", password := "!" }],
        [{ pk := 1, provider := Provider.openid, remoteId := "https://example.com/alice", contentType := some CType.user, objectId := some 1 }],
        ({} : Session)) ∧
     (setup exReqC3 {} [] [] "f").2.2.2.srUser = none ∧
     (setup exReqC3 {} [] [] "f").2.2.2.srProfile = none) ∧
    (setup exReqC3g { generateUsername := true } [] [] "uuid-alice-0000" =
       (SetupResult.redirect 1 "/",
        [{ pk := 1, username := "uuid-alice-0000", password := "!" }],
        [{ pk := 1, provider := Provider.openid, remoteId := "https://example.com/alice", contentType := some CType.user, objectId := some 1 }],
        ({} : Session)) ∧
     (setup exReqC3g { generateUsername := true } [] [] "uuid-alice-0000").2.2.2.srUser = none ∧
     (setup exReqC3g { generateUsername := true } [] [] "uuid-alice-0000").2.2.2.srProfile = none) ∧
    (unusablePassword ≠ "" ∧ checkPassword unusablePassword "pw" = false) :=
  ⟨c3_setup_creates_account.1 exReqC3 {} [] [] "f" blankUser exSpC3 "alice"
     rfl rfl rfl rfl rfl rfl rfl rfl,
   c3_setup_creates_account.2.1 exReqC3g { generateUsername := true } [] []
     "uuid-alice-0000" blankUser exSpC3 rfl rfl rfl rfl rfl,
   c3_setup_creates_account.2.2.1,
   c3_setup_creates_account.2.2.2 "pw"⟩

end SocialReg
